import Mathlib

/-!
Shallow embedding of `flutter/vulkan/vulkan_swapchain.cc` (RS_ENABLE_VK
configuration) from the openharmony/third_party_flutter repository.

External, fallible operations (Vulkan driver calls, Skia calls) are modelled
as oracle inputs supplied in environment records; the swapchain object state
is threaded explicitly.  The registry used for multi-swapchain batched
present is modelled as a list of swapchain states in iteration order.
-/

namespace VulkanSwapchainModel

/-- Result codes of `vkAcquireNextImageKHR` as discriminated by the `switch`
in `VulkanSwapchain::AcquireSurface` (vulkan_swapchain.cc:465-480):
`VK_SUCCESS`, `VK_ERROR_OUT_OF_DATE_KHR`, `VK_ERROR_SURFACE_LOST_KHR`, and
any other code (the `default` branch). -/
inductive VkResult where
  | success
  | errorOutOfDate
  | errorSurfaceLost
  | other (code : Int)
deriving DecidableEq, Repr

/-- The pipeline-stage values that `current_pipeline_stage_` takes:
`VK_PIPELINE_STAGE_TOP_OF_PIPE_BIT` (initial value, constructor line 71),
`VK_PIPELINE_STAGE_COLOR_ATTACHMENT_OUTPUT_BIT` (AcquireSurface step 5) and
`VK_PIPELINE_STAGE_BOTTOM_OF_PIPE_BIT` (Submit / FlushCommands step 2). -/
inductive PipelineStage where
  | topOfPipe
  | colorAttachmentOutput
  | bottomOfPipe
deriving DecidableEq, Repr

/-- `VulkanSwapchain::AcquireStatus` (vulkan_swapchain.h:44-54). -/
inductive AcquireStatus where
  | success
  | errorSurfaceLost
  | errorSurfaceOutOfDate
deriving DecidableEq, Repr

/-- A `VulkanBackbuffer`: validity, the multi-threading ("batched") flag, and
opaque numeric identifiers for the Vulkan handles the swapchain code reads
from it (`GetRenderSemaphore`, `GetRenderCommandBuffer().Handle()`). -/
structure Backbuffer where
  valid : Bool
  multiThreading : Bool
  renderSemaphore : Nat
  renderCommandBuffer : Nat
deriving DecidableEq, Repr

instance : Inhabited Backbuffer := ⟨⟨false, false, 0, 0⟩⟩

/-- A `VulkanImage`: the swapchain only queries `IsValid()` on it. -/
structure VulkanImage where
  valid : Bool
deriving DecidableEq, Repr

instance : Inhabited VulkanImage := ⟨⟨false⟩⟩

/-- `VkExtent2D`. -/
structure Extent2D where
  width : Nat
  height : Nat
deriving DecidableEq, Repr

/-- The fields of `VkSurfaceCapabilitiesKHR` that the swapchain reads:
`currentExtent`, `minImageExtent`, `maxImageExtent` (GetSize, lines 253-269). -/
structure SurfaceCapabilities where
  currentExtent : Extent2D
  minImageExtent : Extent2D
  maxImageExtent : Extent2D
deriving DecidableEq, Repr

instance : Inhabited SurfaceCapabilities := ⟨⟨⟨0, 0⟩, ⟨0, 0⟩, ⟨0, 0⟩⟩⟩

/-- The mutable state of a `VulkanSwapchain` object: the `valid_` flag, the
swapchain handle, the stored surface capabilities, the three parallel arrays
`backbuffers_`, `images_`, `surfaces_` (a surface is modelled by whether the
`sk_sp<SkSurface>` is non-null), and the three counters.  Field names follow
vulkan_swapchain.h:81-90. -/
structure Swapchain where
  valid : Bool
  handle : Nat
  capabilities : SurfaceCapabilities
  backbuffers : List Backbuffer
  images : List VulkanImage
  surfaces : List Bool
  currentPipelineStage : PipelineStage
  currentBackbufferIndex : Nat
  currentImageIndex : Nat
deriving DecidableEq, Repr

/-- `VulkanSwapchain::IsValid` (vulkan_swapchain.cc:225-227). -/
def isValid (s : Swapchain) : Bool := s.valid

/-- The backbuffer at `current_backbuffer_index_`; `backbuffers_[i]` is
unchecked vector indexing in C++, modelled with a default on out-of-range. -/
def currentBackbuffer (s : Swapchain) : Backbuffer :=
  s.backbuffers[s.currentBackbufferIndex]?.getD default

/-- Replace the backbuffer at index `i` by `b` (in-place mutation of the
object a `backbuffers_[i]` unique_ptr points to). -/
def setBackbuffer (s : Swapchain) (i : Nat) (b : Backbuffer) : Swapchain :=
  { s with backbuffers := s.backbuffers.set i b }

/-- `VulkanSwapchain::GetNextBackbuffer` (vulkan_swapchain.cc:367-385):
returns `none` for the C++ `nullptr` result; on success returns the updated
swapchain (with `current_backbuffer_index_` advanced) and the index of the
acquired backbuffer. -/
def getNextBackbuffer (s : Swapchain) : Option (Swapchain × Nat) :=
  if s.backbuffers.length = 0 then
    none
  else
    let nextBackbufferIndex := (s.currentBackbufferIndex + 1) % s.backbuffers.length
    match s.backbuffers[nextBackbufferIndex]? with
    | none => none
    | some backbuffer =>
      if backbuffer.valid then
        some ({ s with currentBackbufferIndex := nextBackbufferIndex }, nextBackbufferIndex)
      else
        none

/-- Oracle inputs for one call to `VulkanSwapchain::AcquireSurface`: the
outcomes of the fallible external calls, in program order. -/
structure AcquireEnv where
  waitFencesOk : Bool
  resetFencesOk : Bool
  acquireResult : VkResult
  nextImageIndex : Nat
  usageBeginOk : Bool
  barrierOk : Bool
  usageEndOk : Bool
  queueSubmitOk : Bool
  backendRTValid : Bool
deriving DecidableEq, Repr

/-- The result of `AcquireSurface`: the post-call object state, the
`AcquireStatus`, and the returned surface (`none` = null `sk_sp<SkSurface>`,
`some i` = the surface at image index `i`). -/
structure AcquireOutcome where
  state : Swapchain
  status : AcquireStatus
  surface : Option Nat
deriving DecidableEq, Repr

/-- The body of `AcquireSurface` after step 0 has acquired backbuffer `bIdx`
and rotated `current_backbuffer_index_` (state `s1`); follows
vulkan_swapchain.cc:414-612 under RS_ENABLE_VK. -/
def acquireSurfaceAfterRotation (s1 : Swapchain) (bIdx : Nat) (env : AcquireEnv) :
    AcquireOutcome :=
  let backbuffer := s1.backbuffers[bIdx]?.getD default
  -- Steps 1-2 are skipped when the backbuffer is in multi-threading mode.
  if backbuffer.multiThreading = false ∧ env.waitFencesOk = false then
    ⟨s1, .errorSurfaceLost, none⟩
  else if backbuffer.multiThreading = false ∧ env.resetFencesOk = false then
    ⟨s1, .errorSurfaceLost, none⟩
  else
    -- Step 3: vkAcquireNextImageKHR.
    match env.acquireResult with
    | .errorOutOfDate => ⟨s1, .errorSurfaceOutOfDate, none⟩
    | .errorSurfaceLost => ⟨s1, .errorSurfaceLost, none⟩
    | .other _ => ⟨s1, .errorSurfaceLost, none⟩
    | .success =>
      if s1.images.length ≤ env.nextImageIndex then
        ⟨s1, .errorSurfaceLost, none⟩
      else
        let image := s1.images[env.nextImageIndex]?.getD default
        if image.valid = false then
          ⟨s1, .errorSurfaceLost, none⟩
        else if env.usageBeginOk = false then
          ⟨s1, .errorSurfaceLost, none⟩
        -- Step 5: image memory barrier to color-attachment layout.
        else if env.barrierOk = false then
          ⟨s1, .errorSurfaceLost, none⟩
        else
          let s2 := { s1 with currentPipelineStage := .colorAttachmentOutput }
          if env.usageEndOk = false then
            ⟨s2, .errorSurfaceLost, none⟩
          else if env.queueSubmitOk = false then
            ⟨s2, .errorSurfaceLost, none⟩
          else
            -- Reset the multi-threading flag after a successful usage submit.
            let s3 := setBackbuffer s2 bIdx { backbuffer with multiThreading := false }
            -- Step 8: `surfaces_[next_image_index]` null check.
            if s3.surfaces[env.nextImageIndex]?.getD false = false then
              ⟨s3, .errorSurfaceLost, none⟩
            else if env.backendRTValid = false then
              ⟨s3, .errorSurfaceLost, none⟩
            else
              ⟨{ s3 with currentImageIndex := env.nextImageIndex },
                .success, some env.nextImageIndex⟩

/-- `VulkanSwapchain::AcquireSurface` (vulkan_swapchain.cc:387-613,
RS_ENABLE_VK configuration). -/
def acquireSurface (s : Swapchain) (env : AcquireEnv) : AcquireOutcome :=
  if isValid s = false then
    ⟨s, .errorSurfaceLost, none⟩
  else
    match getNextBackbuffer s with
    | none => ⟨s, .errorSurfaceLost, none⟩
    | some (s1, bIdx) => acquireSurfaceAfterRotation s1 bIdx env

/-- Oracle inputs for `VulkanSwapchain::Submit`. -/
structure SubmitEnv where
  renderBeginOk : Bool
  barrierOk : Bool
  renderEndOk : Bool
  queueSubmitOk : Bool
  presentOk : Bool
deriving DecidableEq, Repr

/-- `VulkanSwapchain::Submit` (vulkan_swapchain.cc:749-878): returns the
post-call state and the boolean result. -/
def submit (s : Swapchain) (env : SubmitEnv) : Swapchain × Bool :=
  if isValid s = false then
    (s, false)
  else if env.renderBeginOk = false then
    (s, false)
  else if env.barrierOk = false then
    (s, false)
  else
    let s2 := { s with currentPipelineStage := .bottomOfPipe }
    if env.renderEndOk = false then
      (s2, false)
    else if env.queueSubmitOk = false then
      (s2, false)
    else
      let backbuffer := currentBackbuffer s2
      let s3 := setBackbuffer s2 s2.currentBackbufferIndex
        { backbuffer with multiThreading := false }
      if env.presentOk = false then (s3, false) else (s3, true)

/-- Oracle inputs for `VulkanSwapchain::FlushCommands`. -/
structure FlushEnv where
  renderBeginOk : Bool
  barrierOk : Bool
  renderEndOk : Bool
deriving DecidableEq, Repr

/-- `VulkanSwapchain::FlushCommands` (vulkan_swapchain.cc:616-671):
records the present-layout transition without submitting or presenting. -/
def flushCommands (s : Swapchain) (env : FlushEnv) : Swapchain × Bool :=
  if isValid s = false then
    (s, false)
  else if env.renderBeginOk = false then
    (s, false)
  else if env.barrierOk = false then
    (s, false)
  else
    let s2 := { s with currentPipelineStage := .bottomOfPipe }
    if env.renderEndOk = false then (s2, false) else (s2, true)

/-- `VulkanSwapchain::GetSize` (vulkan_swapchain.cc:253-269): starts from
`capabilities_.currentExtent` and adjusts each dimension by the two-branch
`if`/`else if` chain in the source. -/
def getSize (s : Swapchain) : Nat × Nat :=
  let caps := s.capabilities
  let width :=
    if caps.currentExtent.width < caps.minImageExtent.width then
      caps.minImageExtent.width
    else if caps.maxImageExtent.width < caps.currentExtent.width then
      caps.maxImageExtent.width
    else
      caps.currentExtent.width
  let height :=
    if caps.currentExtent.height < caps.minImageExtent.height then
      caps.minImageExtent.height
    else if caps.maxImageExtent.height < caps.currentExtent.height then
      caps.maxImageExtent.height
    else
      caps.currentExtent.height
  (width, height)

/-! ### The batched-present aggregation path (`AddToPresent` / `PresentAll`) -/

/-- Mark the chain's current backbuffer batched: the
`backbuffer->SetMultiThreading()` performed on each registered chain in the
`PresentAll` collection loop (vulkan_swapchain.cc:702-703). -/
def markBatched (c : Swapchain) : Swapchain :=
  setBackbuffer c c.currentBackbufferIndex
    { currentBackbuffer c with multiThreading := true }

/-- The argument record of one `VulkanDevice::QueueSubmit` call made by
`PresentAll` (vulkan_swapchain.cc:713-719). -/
structure SubmitCall where
  waitSemaphores : List Nat
  signalSemaphores : List Nat
  commandBuffers : List Nat
  fence : Nat
deriving DecidableEq, Repr

/-- The argument record of one `vkQueuePresentKHR` call made by `PresentAll`
(the `VkPresentInfoKHR` of vulkan_swapchain.cc:727-737). -/
structure PresentCall where
  waitSemaphores : List Nat
  swapchains : List Nat
  imageIndices : List Nat
deriving DecidableEq, Repr

/-- Oracle inputs for `PresentAll`: outcomes of the batched queue submit and
of the batched present call. -/
structure PresentAllEnv where
  queueSubmitOk : Bool
  presentOk : Bool
deriving DecidableEq, Repr

/-- The observable outcome of one `PresentAll` call: the contents of the
`to_be_present_` registry afterwards, the registered chains after the call
(the registry stores non-owning pointers, so these objects live on even when
the registry is cleared), and the device calls that were issued. -/
structure PresentAllOutcome where
  registry : List Swapchain
  chains : List Swapchain
  submitCalls : List SubmitCall
  presentCalls : List PresentCall
deriving DecidableEq, Repr

/-- `VulkanSwapchain::PresentAll` (vulkan_swapchain.cc:678-746).  The
registry `reg` is `to_be_present_` in iteration order; `sharedFence` is the
externally supplied fence.  If the registry is empty the call logs and
returns.  Otherwise the collection loop marks every registered chain's
current backbuffer as batched and gathers its render semaphore, render
command buffer handle, swapchain handle and current image index; one queue
submit is issued (no wait semaphores, signalling every collected render
semaphore, with the shared fence); if it succeeds one present call is issued
over all collected chains; the registry is cleared only when the present
call also succeeds, each failure path returning early. -/
def presentAll (reg : List Swapchain) (sharedFence : Nat) (env : PresentAllEnv) :
    PresentAllOutcome :=
  if reg.isEmpty then
    ⟨reg, [], [], []⟩
  else
    let chains := reg.map markBatched
    let queueSignalSemaphores := chains.map fun c => (currentBackbuffer c).renderSemaphore
    let commandBuffers := chains.map fun c => (currentBackbuffer c).renderCommandBuffer
    let swapchains := chains.map fun c => c.handle
    let presentImageIndices := chains.map fun c => c.currentImageIndex
    let submitCall : SubmitCall := ⟨[], queueSignalSemaphores, commandBuffers, sharedFence⟩
    if env.queueSubmitOk = false then
      ⟨chains, chains, [submitCall], []⟩
    else
      let presentCall : PresentCall := ⟨queueSignalSemaphores, swapchains, presentImageIndices⟩
      if env.presentOk = false then
        ⟨chains, chains, [submitCall], [presentCall]⟩
      else
        ⟨[], chains, [submitCall], [presentCall]⟩

/-! ### Statement-order trace of registry accesses and the registry mutex

`AddToPresent` and `PresentAll` interact with the shared `to_be_present_`
map under `map_mutex_`.  To reason about which accesses are inside the
critical section, the statement order of the two functions is modelled as an
event trace. -/

/-- Events touching the registry or its mutex, in the order the source
executes them. -/
inductive RegistryEvent where
  | emptyCheck
  | lockAcquire
  | readRegistry
  | writeRegistry
  | clearRegistry
  | lockRelease
deriving DecidableEq, Repr

/-- Statement-order trace of `VulkanSwapchain::AddToPresent`
(vulkan_swapchain.cc:673-676): lock, insert, unlock at scope exit. -/
def addToPresentEvents : List RegistryEvent :=
  [.lockAcquire, .writeRegistry, .lockRelease]

/-- Statement-order trace of `VulkanSwapchain::PresentAll`
(vulkan_swapchain.cc:678-746): the `to_be_present_.empty()` check at line
679 executes before the `std::lock_guard` at line 684 acquires the mutex;
after the lock is taken the collection loop reads the registry, and the
registry is cleared (still under the lock) only when both the queue submit
and the present succeed; the `lock_guard` releases the mutex at every exit
from the function. -/
def presentAllEvents (registryEmpty queueSubmitOk presentOk : Bool) :
    List RegistryEvent :=
  if registryEmpty then
    [.emptyCheck]
  else
    .emptyCheck :: .lockAcquire :: .readRegistry ::
      (if queueSubmitOk = false then
        [.lockRelease]
      else if presentOk = false then
        [.lockRelease]
      else
        [.clearRegistry, .lockRelease])

/-- Whether an event reads or mutates the registry itself (as opposed to the
mutex). -/
def touchesRegistry (e : RegistryEvent) : Bool :=
  match e with
  | .emptyCheck => true
  | .readRegistry => true
  | .writeRegistry => true
  | .clearRegistry => true
  | .lockAcquire => false
  | .lockRelease => false

/-- `true` iff some registry access in the trace occurs before the first
mutex acquisition (i.e. outside the critical section). -/
def accessBeforeLock (tr : List RegistryEvent) : Bool :=
  (tr.takeWhile fun e => e ≠ RegistryEvent.lockAcquire).any touchesRegistry

/-- `true` iff every registry access in the trace after the first mutex
acquisition occurs before the mutex is released. -/
def accessesLockGuarded (tr : List RegistryEvent) : Bool :=
  ((tr.dropWhile fun e => e ≠ RegistryEvent.lockAcquire).dropWhile
      fun e => e ≠ RegistryEvent.lockRelease).all fun e => touchesRegistry e = false

/-- The registry accesses of a trace that fall outside the critical section:
those before the mutex is first acquired, together with those at or after
the point where it is released. -/
def accessesOutsideLock (tr : List RegistryEvent) : List RegistryEvent :=
  (tr.takeWhile fun e => e ≠ RegistryEvent.lockAcquire).filter touchesRegistry ++
    ((tr.dropWhile fun e => e ≠ RegistryEvent.lockAcquire).dropWhile
        fun e => e ≠ RegistryEvent.lockRelease).filter touchesRegistry

/-! ### Construction (`VulkanSwapchain::VulkanSwapchain` and
`CreateSwapchainImages`) -/

/-- The Skia color types appearing in `DesiredFormatInfos()`. -/
inductive SkColorType where
  | rgba8888
  | bgra8888
  | rgbaF16
deriving DecidableEq, Repr

/-- The Vulkan formats appearing in `DesiredFormatInfos()`, plus
`VK_FORMAT_UNDEFINED`. -/
inductive VkFormat where
  | r8g8b8a8Srgb
  | b8g8r8a8Srgb
  | r16g16b16a16Sfloat
  | r8g8b8a8Unorm
  | b8g8r8a8Unorm
  | undefined
deriving DecidableEq, Repr

/-- One entry of `DesiredFormatInfos()` (format and color type; the color
space is not read by the logic modelled here). -/
structure FormatInfo where
  format : VkFormat
  colorType : SkColorType
deriving DecidableEq, Repr

/-- `DesiredFormatInfos()` in the RS_ENABLE_VK configuration
(vulkan_swapchain.cc:30-41). -/
def desiredFormatInfos : List FormatInfo :=
  [⟨.r8g8b8a8Srgb, .rgba8888⟩,
   ⟨.b8g8r8a8Srgb, .bgra8888⟩,
   ⟨.r16g16b16a16Sfloat, .rgbaF16⟩,
   ⟨.r8g8b8a8Unorm, .rgba8888⟩,
   ⟨.b8g8r8a8Unorm, .rgba8888⟩]

/-- The `desired_formats` vector built in the constructor
(vulkan_swapchain.cc:94-102): each candidate whose color type the Skia
context cannot target as a render surface is replaced by
`VK_FORMAT_UNDEFINED`. -/
def desiredFormats (colorTypeSupportedAsSurface : SkColorType → Bool) : List VkFormat :=
  desiredFormatInfos.map fun info =>
    if colorTypeSupportedAsSurface info.colorType then info.format else .undefined

/-- Oracle inputs for constructing one swapchain image slot inside the
`CreateSwapchainImages` loop: whether the freshly made `VulkanBackbuffer` is
valid, whether the `VulkanImage` wrapper is valid, and whether
`CreateSkiaSurface` returns a non-null surface. -/
structure ImageEnv where
  backbufferOk : Bool
  imageOk : Bool
  surfaceOk : Bool
deriving DecidableEq, Repr

/-- The loop of `CreateSwapchainImages` (vulkan_swapchain.cc:321-350):
appends to the three accumulated arrays in order, returning `false` at the
first failing slot (with the arrays as appended so far). -/
def createImagesLoop (slots : List ImageEnv) (backbuffers : List Backbuffer)
    (images : List VulkanImage) (surfaces : List Bool) :
    List Backbuffer × List VulkanImage × List Bool × Bool :=
  match slots with
  | [] => (backbuffers, images, surfaces, true)
  | slot :: rest =>
    if slot.backbufferOk = false then
      (backbuffers, images, surfaces, false)
    else
      let backbuffers2 := backbuffers ++ [⟨true, false, 0, 0⟩]
      if slot.imageOk = false then
        (backbuffers2, images, surfaces, false)
      else
        let images2 := images ++ [⟨true⟩]
        if slot.surfaceOk = false then
          (backbuffers2, images2, surfaces, false)
        else
          createImagesLoop rest backbuffers2 images2 (surfaces ++ [true])

/-- `VulkanSwapchain::CreateSwapchainImages` (vulkan_swapchain.cc:310-365):
fails when `GetImages()` returned no images (the slot list is empty), else
runs the population loop. -/
def createSwapchainImages (slots : List ImageEnv) :
    List Backbuffer × List VulkanImage × List Bool × Bool :=
  if slots.isEmpty then
    ([], [], [], false)
  else
    createImagesLoop slots [] [] []

/-- Oracle inputs for the constructor `VulkanSwapchain::VulkanSwapchain`
(vulkan_swapchain.cc:61-221), in program order: validity of the device,
surface and Skia context; the surface-capabilities query and its result;
Skia's answer per color type; the platform's `ChooseSurfaceFormat` answer
(a function of the candidate list it is asked about); present-mode choice;
the surface-support query; `vkCreateSwapchainKHR`; and the per-slot
outcomes of `CreateSwapchainImages` (`getImages` is the image list
`GetImages()` returns, empty on failure). -/
structure CtorEnv where
  deviceValid : Bool
  surfaceValid : Bool
  skiaContextNonNull : Bool
  getCapabilitiesOk : Bool
  capabilities : SurfaceCapabilities
  colorTypeSupportedAsSurface : SkColorType → Bool
  chooseSurfaceFormat : List VkFormat → Int
  choosePresentModeOk : Bool
  surfaceSupportQueryOk : Bool
  surfaceSupported : Bool
  createSwapchainOk : Bool
  getImages : List ImageEnv

/-- The observable outcome of running the constructor: the constructed
object state, and the candidate list passed to the platform's
`ChooseSurfaceFormat` (`none` when construction failed before asking). -/
structure CtorOutcome where
  chain : Swapchain
  formatQuery : Option (List VkFormat)

/-- `VulkanSwapchain::VulkanSwapchain` (vulkan_swapchain.cc:61-221).  The
member initializers (line 67-74) set `current_pipeline_stage_` to top of
pipe, both indices to 0 and `valid_` to false; each guard failure returns
with the fields as initialized so far; `valid_ = true` is reached only when
every step, including `CreateSwapchainImages`, succeeded. -/
def constructSwapchain (env : CtorEnv) (handle : Nat) : CtorOutcome :=
  let s0 : Swapchain :=
    ⟨false, handle, default, [], [], [], .topOfPipe, 0, 0⟩
  if env.deviceValid = false ∨ env.surfaceValid = false ∨ env.skiaContextNonNull = false then
    ⟨s0, none⟩
  else if env.getCapabilitiesOk = false then
    ⟨s0, none⟩
  else
    let s1 := { s0 with capabilities := env.capabilities }
    let formats := desiredFormats env.colorTypeSupportedAsSurface
    let formatIndex := env.chooseSurfaceFormat formats
    if formatIndex < 0 then
      ⟨s1, some formats⟩
    else if env.choosePresentModeOk = false then
      ⟨s1, some formats⟩
    else if env.surfaceSupportQueryOk = false then
      ⟨s1, some formats⟩
    else if env.surfaceSupported = false then
      ⟨s1, some formats⟩
    else if env.createSwapchainOk = false then
      ⟨s1, some formats⟩
    else
      let quad := createSwapchainImages env.getImages
      ⟨{ s1 with
          valid := quad.2.2.2
          backbuffers := quad.1
          images := quad.2.1
          surfaces := quad.2.2.1 }, some formats⟩

/-- Whether the fence wait/reset phase (steps 1-2) of `AcquireSurface`
completes without an early return: the backbuffer is in multi-threading mode
(both steps skipped) or both the wait and the reset succeed. -/
def fencePhasePassed (s1 : Swapchain) (bIdx : Nat) (env : AcquireEnv) : Bool :=
  (s1.backbuffers[bIdx]?.getD default).multiThreading ||
    (env.waitFencesOk && env.resetFencesOk)

/-- Whether `AcquireSurface` reaches step 3 (the `vkAcquireNextImageKHR`
call): the swapchain is valid, a backbuffer was obtained, and the fence
phase passed. -/
def reachesImageAcquire (s : Swapchain) (env : AcquireEnv) : Bool :=
  isValid s &&
    (match getNextBackbuffer s with
     | none => false
     | some (s1, bIdx) => fencePhasePassed s1 bIdx env)

/-- Whether `AcquireSurface` reaches step 7 (the usage queue submit): it
reached step 3, the platform acquire succeeded with an in-bounds index onto
a valid image, and command-buffer begin, barrier insertion and
command-buffer end all succeeded.  (`GetNextBackbuffer` does not change the
image array, so the bounds are stated against the pre-call state.) -/
def reachesUsageSubmit (s : Swapchain) (env : AcquireEnv) : Bool :=
  reachesImageAcquire s env &&
    (match env.acquireResult with
     | VkResult.success => true
     | _ => false) &&
    decide (env.nextImageIndex < s.images.length) &&
    (s.images[env.nextImageIndex]?.getD default).valid &&
    env.usageBeginOk && env.barrierOk && env.usageEndOk

/-- The structural invariant tied to `IsValid()`: a valid swapchain has its
three parallel arrays of equal non-zero length and both counters in range,
so the unchecked indexing in `Submit` and `FlushCommands` stays in
bounds. -/
def Inv (s : Swapchain) : Prop :=
  s.valid = true →
    (s.backbuffers.length = s.images.length ∧
     s.images.length = s.surfaces.length ∧
     0 < s.images.length ∧
     s.currentImageIndex < s.images.length ∧
     s.currentBackbufferIndex < s.backbuffers.length)

/-! ### Concrete example states used by witnesses and counterexamples -/

/-- A valid backbuffer, not in multi-threading mode. -/
def exBackbuffer : Backbuffer := ⟨true, false, 11, 21⟩

/-- A second valid backbuffer, not in multi-threading mode. -/
def exBackbuffer2 : Backbuffer := ⟨true, false, 12, 22⟩

/-- Example surface capabilities: current extent 300×200 within
[100,400]×[100,400]. -/
def exCaps : SurfaceCapabilities := ⟨⟨300, 200⟩, ⟨100, 100⟩, ⟨400, 400⟩⟩

/-- A valid two-image swapchain in its initial post-construction state. -/
def exChain : Swapchain :=
  ⟨true, 1, exCaps, [exBackbuffer, exBackbuffer2], [⟨true⟩, ⟨true⟩],
   [true, true], .topOfPipe, 0, 0⟩

/-- An acquire environment in which every external call succeeds and the
platform hands back image index 1. -/
def exAcquireEnv : AcquireEnv := ⟨true, true, .success, 1, true, true, true, true, true⟩

/-- An acquire environment in which the platform reports out-of-date. -/
def exAcquireEnvOutOfDate : AcquireEnv :=
  ⟨true, true, .errorOutOfDate, 0, true, true, true, true, true⟩

/-- An acquire environment in which everything succeeds except the usage
queue submit of step 7. -/
def exAcquireEnvSubmitFail : AcquireEnv :=
  ⟨true, true, .success, 0, true, true, true, false, true⟩

/-- An acquire environment in which everything succeeds except the barrier
insertion of step 5. -/
def exAcquireEnvBarrierFail : AcquireEnv :=
  ⟨true, true, .success, 0, true, false, true, true, true⟩

/-- A valid backbuffer currently flagged as batched (multi-threading). -/
def exBackbufferBatched : Backbuffer := ⟨true, true, 13, 23⟩

/-- A valid two-image swapchain whose next rotation slot (index 1) holds a
batched backbuffer. -/
def exChainBatched : Swapchain :=
  ⟨true, 2, exCaps, [exBackbuffer, exBackbufferBatched], [⟨true⟩, ⟨true⟩],
   [true, true], .topOfPipe, 0, 0⟩

/-- A submit environment in which the barrier insertion fails. -/
def exSubmitEnvBarrierFail : SubmitEnv := ⟨true, false, true, true, true⟩

/-- A flush environment in which the barrier insertion fails. -/
def exFlushEnvBarrierFail : FlushEnv := ⟨true, false, true⟩

/-- A batched-present environment in which the queue submit fails. -/
def exPresentAllEnvSubmitFail : PresentAllEnv := ⟨false, true⟩

/-- A batched-present environment in which both calls succeed. -/
def exPresentAllEnvOk : PresentAllEnv := ⟨true, true⟩

/-- A constructor environment in which every step succeeds but the renderer
backend supports no candidate color type and the platform then chooses no
candidate (returns -1). -/
def exCtorEnvNoFormat : CtorEnv :=
  ⟨true, true, true, true, exCaps, fun _ => false, fun _ => -1,
   true, true, true, true, [⟨true, true, true⟩]⟩

/-- A constructor environment in which every step succeeds: all color types
supported, the platform chooses candidate 0, and two image slots populate
successfully. -/
def exCtorEnvOk : CtorEnv :=
  ⟨true, true, true, true, exCaps, fun _ => true, fun _ => 0,
   true, true, true, true, [⟨true, true, true⟩, ⟨true, true, true⟩]⟩

/-! ### Structural lemmas -/

@[simp] lemma setBackbuffer_currentBackbufferIndex (s : Swapchain) (i : Nat) (b : Backbuffer) :
    (setBackbuffer s i b).currentBackbufferIndex = s.currentBackbufferIndex := rfl

@[simp] lemma setBackbuffer_currentImageIndex (s : Swapchain) (i : Nat) (b : Backbuffer) :
    (setBackbuffer s i b).currentImageIndex = s.currentImageIndex := rfl

@[simp] lemma setBackbuffer_valid (s : Swapchain) (i : Nat) (b : Backbuffer) :
    (setBackbuffer s i b).valid = s.valid := rfl

@[simp] lemma setBackbuffer_currentPipelineStage (s : Swapchain) (i : Nat) (b : Backbuffer) :
    (setBackbuffer s i b).currentPipelineStage = s.currentPipelineStage := rfl

@[simp] lemma setBackbuffer_images (s : Swapchain) (i : Nat) (b : Backbuffer) :
    (setBackbuffer s i b).images = s.images := rfl

@[simp] lemma setBackbuffer_surfaces (s : Swapchain) (i : Nat) (b : Backbuffer) :
    (setBackbuffer s i b).surfaces = s.surfaces := rfl

@[simp] lemma setBackbuffer_backbuffers (s : Swapchain) (i : Nat) (b : Backbuffer) :
    (setBackbuffer s i b).backbuffers = s.backbuffers.set i b := rfl

@[simp] lemma setBackbuffer_length (s : Swapchain) (i : Nat) (b : Backbuffer) :
    (setBackbuffer s i b).backbuffers.length = s.backbuffers.length := by
  simp [setBackbuffer]

/-- Characterization of a successful `GetNextBackbuffer`: when the backbuffer
array is non-empty and the backbuffer in the next rotation slot is valid, the
call advances `current_backbuffer_index_` to `(previous + 1) mod N` and
touches nothing else. -/
lemma getNextBackbuffer_some (s : Swapchain)
    (hn : s.backbuffers.length ≠ 0)
    (hv : (s.backbuffers[(s.currentBackbufferIndex + 1) % s.backbuffers.length]?.getD
        default).valid = true) :
    getNextBackbuffer s =
      some ({ s with currentBackbufferIndex :=
                (s.currentBackbufferIndex + 1) % s.backbuffers.length },
            (s.currentBackbufferIndex + 1) % s.backbuffers.length) := by
  have hlt : (s.currentBackbufferIndex + 1) % s.backbuffers.length < s.backbuffers.length :=
    Nat.mod_lt _ (Nat.pos_of_ne_zero hn)
  have hb := List.getElem?_eq_getElem hlt
  rw [hb] at hv
  simp only [Option.getD_some] at hv
  simp only [getNextBackbuffer]
  rw [if_neg hn, hb]
  simp [hv]

/-- `GetNextBackbuffer` either fails or sets `current_backbuffer_index_` to
the next rotation slot, preserving every other field. -/
lemma getNextBackbuffer_eq_some (s s' : Swapchain) (i : Nat)
    (h : getNextBackbuffer s = some (s', i)) :
    i = (s.currentBackbufferIndex + 1) % s.backbuffers.length ∧
    s' = { s with currentBackbufferIndex := i } := by
  simp only [getNextBackbuffer] at h
  by_cases hn : s.backbuffers.length = 0
  · simp [hn] at h
  · rw [if_neg hn] at h
    rcases hb : s.backbuffers[(s.currentBackbufferIndex + 1) % s.backbuffers.length]? with _ | b
    · rw [hb] at h; simp at h
    · rw [hb] at h
      by_cases hv : b.valid
      · simp [hv] at h
        exact ⟨h.2.symm, by rw [← h.1, h.2]⟩
      · simp [hv] at h

/-- The post-rotation body of `AcquireSurface` never changes
`current_backbuffer_index_`, the `valid_` flag, or the length of the
backbuffer array. -/
lemma acquireSurfaceAfterRotation_bbIdx (s1 : Swapchain) (bIdx : Nat) (env : AcquireEnv) :
    (acquireSurfaceAfterRotation s1 bIdx env).state.currentBackbufferIndex =
        s1.currentBackbufferIndex := by
  obtain ⟨wf, rf, ar, nii, ub, bo, ue, qs, brt⟩ := env
  cases ar <;>
  · unfold acquireSurfaceAfterRotation
    dsimp only
    simp [apply_ite (fun o : AcquireOutcome => o.state.currentBackbufferIndex)]

/-- The post-rotation body of `AcquireSurface` never changes the `valid_`
flag. -/
lemma acquireSurfaceAfterRotation_valid (s1 : Swapchain) (bIdx : Nat) (env : AcquireEnv) :
    (acquireSurfaceAfterRotation s1 bIdx env).state.valid = s1.valid := by
  obtain ⟨wf, rf, ar, nii, ub, bo, ue, qs, brt⟩ := env
  cases ar <;>
  · unfold acquireSurfaceAfterRotation
    dsimp only
    simp [apply_ite (fun o : AcquireOutcome => o.state.valid)]

/-- The post-rotation body of `AcquireSurface` never changes the length of
the backbuffer array. -/
lemma acquireSurfaceAfterRotation_bbLength (s1 : Swapchain) (bIdx : Nat) (env : AcquireEnv) :
    (acquireSurfaceAfterRotation s1 bIdx env).state.backbuffers.length =
        s1.backbuffers.length := by
  obtain ⟨wf, rf, ar, nii, ub, bo, ue, qs, brt⟩ := env
  cases ar <;>
  · unfold acquireSurfaceAfterRotation
    dsimp only
    simp [apply_ite (fun o : AcquireOutcome => o.state.backbuffers.length)]

/-- The post-rotation body of `AcquireSurface` never changes the image
array. -/
lemma acquireSurfaceAfterRotation_images (s1 : Swapchain) (bIdx : Nat) (env : AcquireEnv) :
    (acquireSurfaceAfterRotation s1 bIdx env).state.images = s1.images := by
  obtain ⟨wf, rf, ar, nii, ub, bo, ue, qs, brt⟩ := env
  cases ar <;>
  · unfold acquireSurfaceAfterRotation
    dsimp only
    simp [apply_ite (fun o : AcquireOutcome => o.state.images)]

/-- The post-rotation body of `AcquireSurface` never changes the surface
array. -/
lemma acquireSurfaceAfterRotation_surfaces (s1 : Swapchain) (bIdx : Nat) (env : AcquireEnv) :
    (acquireSurfaceAfterRotation s1 bIdx env).state.surfaces = s1.surfaces := by
  obtain ⟨wf, rf, ar, nii, ub, bo, ue, qs, brt⟩ := env
  cases ar <;>
  · unfold acquireSurfaceAfterRotation
    dsimp only
    simp [apply_ite (fun o : AcquireOutcome => o.state.surfaces)]

/-- Either the post-rotation body of `AcquireSurface` succeeds — returning
the surface at the platform-chosen image index, storing that index into
`current_image_index_`, with the barrier insertion and the usage queue
submit both having succeeded — or it fails, returning a null surface and
leaving `current_image_index_` untouched. -/
lemma acquireSurfaceAfterRotation_success_or (s1 : Swapchain) (bIdx : Nat) (env : AcquireEnv) :
    ((acquireSurfaceAfterRotation s1 bIdx env).status = .success ∧
     (acquireSurfaceAfterRotation s1 bIdx env).surface = some env.nextImageIndex ∧
     (acquireSurfaceAfterRotation s1 bIdx env).state.currentImageIndex = env.nextImageIndex ∧
     env.barrierOk = true ∧ env.queueSubmitOk = true ∧
     env.nextImageIndex < s1.images.length) ∨
    ((acquireSurfaceAfterRotation s1 bIdx env).status ≠ .success ∧
     (acquireSurfaceAfterRotation s1 bIdx env).surface = none ∧
     (acquireSurfaceAfterRotation s1 bIdx env).state.currentImageIndex =
        s1.currentImageIndex) := by
  obtain ⟨wf, rf, ar, nii, ub, bo, ue, qs, brt⟩ := env
  cases ar
  case errorOutOfDate =>
    unfold acquireSurfaceAfterRotation; dsimp only
    repeat' split
    all_goals simp
  case errorSurfaceLost =>
    unfold acquireSurfaceAfterRotation; dsimp only
    repeat' split
    all_goals simp
  case other =>
    unfold acquireSurfaceAfterRotation; dsimp only
    repeat' split
    all_goals simp
  case success =>
    unfold acquireSurfaceAfterRotation
    dsimp only
    by_cases c1 : (s1.backbuffers[bIdx]?.getD default).multiThreading = false ∧ wf = false
    · obtain ⟨c1a, c1b⟩ := c1
      simp [c1a, c1b]
    rw [if_neg c1]
    by_cases c2 : (s1.backbuffers[bIdx]?.getD default).multiThreading = false ∧ rf = false
    · obtain ⟨c2a, c2b⟩ := c2
      simp [c2a, c2b]
    rw [if_neg c2]
    by_cases c3 : s1.images.length ≤ nii
    · simp [c3]
    rw [if_neg c3]
    by_cases c4 : (s1.images[nii]?.getD default).valid = false
    · simp [c4]
    rw [if_neg c4]
    by_cases c5 : ub = false
    · simp [c5]
    rw [if_neg c5]
    by_cases c6 : bo = false
    · simp [c6]
    rw [if_neg c6]
    by_cases c7 : ue = false
    · simp [c7]
    rw [if_neg c7]
    by_cases c8 : qs = false
    · simp [c8]
    rw [if_neg c8]
    simp only [setBackbuffer_surfaces]
    by_cases c9 : (({ s1 with currentPipelineStage :=
        PipelineStage.colorAttachmentOutput } : Swapchain).surfaces[nii]?.getD false) = false
    · simp [c9]
    rw [if_neg c9]
    by_cases c10 : brt = false
    · simp [c10]
    rw [if_neg c10]
    left
    refine ⟨rfl, rfl, rfl, ?_, ?_, ?_⟩
    · exact Bool.eq_true_of_not_eq_false c6
    · exact Bool.eq_true_of_not_eq_false c8
    · exact Nat.not_le.mp c3

/-- When the fence phase passes and the platform reports out-of-date, the
post-rotation body returns `(ErrorSurfaceOutOfDate, null)` without touching
the state further. -/
lemma acquireSurfaceAfterRotation_outOfDate (s1 : Swapchain) (bIdx : Nat) (env : AcquireEnv)
    (hf : fencePhasePassed s1 bIdx env = true)
    (ha : env.acquireResult = VkResult.errorOutOfDate) :
    acquireSurfaceAfterRotation s1 bIdx env = ⟨s1, .errorSurfaceOutOfDate, none⟩ := by
  simp only [fencePhasePassed, Bool.or_eq_true, Bool.and_eq_true] at hf
  have h1 : ¬((s1.backbuffers[bIdx]?.getD default).multiThreading = false ∧
      env.waitFencesOk = false) := by
    rintro ⟨hmt, hwf⟩
    rcases hf with h | ⟨h, -⟩
    · rw [hmt] at h; exact Bool.false_ne_true h
    · rw [hwf] at h; exact Bool.false_ne_true h
  have h2 : ¬((s1.backbuffers[bIdx]?.getD default).multiThreading = false ∧
      env.resetFencesOk = false) := by
    rintro ⟨hmt, hrf⟩
    rcases hf with h | ⟨-, h⟩
    · rw [hmt] at h; exact Bool.false_ne_true h
    · rw [hrf] at h; exact Bool.false_ne_true h
  unfold acquireSurfaceAfterRotation
  dsimp only
  rw [if_neg h1, if_neg h2, ha]

/-- When the fence phase passes and the platform reports any result other
than success, out-of-date or surface-lost, the post-rotation body returns
`(ErrorSurfaceLost, null)` without touching the state further. -/
lemma acquireSurfaceAfterRotation_other (s1 : Swapchain) (bIdx : Nat) (env : AcquireEnv)
    (k : Int)
    (hf : fencePhasePassed s1 bIdx env = true)
    (ha : env.acquireResult = VkResult.other k) :
    acquireSurfaceAfterRotation s1 bIdx env = ⟨s1, .errorSurfaceLost, none⟩ := by
  simp only [fencePhasePassed, Bool.or_eq_true, Bool.and_eq_true] at hf
  have h1 : ¬((s1.backbuffers[bIdx]?.getD default).multiThreading = false ∧
      env.waitFencesOk = false) := by
    rintro ⟨hmt, hwf⟩
    rcases hf with h | ⟨h, -⟩
    · rw [hmt] at h; exact Bool.false_ne_true h
    · rw [hwf] at h; exact Bool.false_ne_true h
  have h2 : ¬((s1.backbuffers[bIdx]?.getD default).multiThreading = false ∧
      env.resetFencesOk = false) := by
    rintro ⟨hmt, hrf⟩
    rcases hf with h | ⟨-, h⟩
    · rw [hmt] at h; exact Bool.false_ne_true h
    · rw [hrf] at h; exact Bool.false_ne_true h
  unfold acquireSurfaceAfterRotation
  dsimp only
  rw [if_neg h1, if_neg h2, ha]

/-- **C3.** For every valid swapchain with a non-empty backbuffer array whose
next rotation slot holds a valid backbuffer, `AcquireSurface` sets
`current_backbuffer_index_` to `(previous + 1) mod N`, whatever image index
the platform returns and whether or not any later acquire step fails. -/
theorem acquire_rotates_backbuffer_index (s : Swapchain) (env : AcquireEnv)
    (hvalid : s.valid = true)
    (hn : s.backbuffers.length ≠ 0)
    (hv : (s.backbuffers[(s.currentBackbufferIndex + 1) % s.backbuffers.length]?.getD
        default).valid = true) :
    (acquireSurface s env).state.currentBackbufferIndex =
      (s.currentBackbufferIndex + 1) % s.backbuffers.length := by
  unfold acquireSurface
  rw [getNextBackbuffer_some s hn hv]
  simp only [isValid, hvalid]
  rw [if_neg (by simp)]
  exact acquireSurfaceAfterRotation_bbIdx _ _ env

/-- Witness for C3: on the concrete two-backbuffer chain `exChain` (previous
index 0), a fully successful acquire moves the backbuffer index to 1. -/
theorem acquire_rotates_backbuffer_index_witness :
    exChain.valid = true ∧ exChain.backbuffers.length ≠ 0 ∧
    (acquireSurface exChain exAcquireEnv).state.currentBackbufferIndex =
      (exChain.currentBackbufferIndex + 1) % exChain.backbuffers.length :=
  ⟨by decide, by decide,
    acquire_rotates_backbuffer_index exChain exAcquireEnv (by decide) (by decide) (by decide)⟩

/-- **C4.** Once `AcquireSurface` reaches the platform image-acquire call:
an out-of-date report yields `(ErrorSurfaceOutOfDate, null)` with
`current_image_index_` and `current_pipeline_stage_` unchanged (only the
step-0 backbuffer rotation has happened); any platform result other than
success, out-of-date or surface-lost yields `ErrorSurfaceLost`; and in
general a non-`Success` return leaves `current_image_index_` unassigned and
the returned surface null. -/
theorem acquire_error_paths (s : Swapchain) (env : AcquireEnv)
    (h : reachesImageAcquire s env = true) :
    (env.acquireResult = VkResult.errorOutOfDate →
      (acquireSurface s env).status = AcquireStatus.errorSurfaceOutOfDate ∧
      (acquireSurface s env).surface = none ∧
      (acquireSurface s env).state.currentImageIndex = s.currentImageIndex ∧
      (acquireSurface s env).state.currentPipelineStage = s.currentPipelineStage) ∧
    (∀ k, env.acquireResult = VkResult.other k →
      (acquireSurface s env).status = AcquireStatus.errorSurfaceLost ∧
      (acquireSurface s env).surface = none) ∧
    ((acquireSurface s env).status ≠ AcquireStatus.success →
      (acquireSurface s env).state.currentImageIndex = s.currentImageIndex ∧
      (acquireSurface s env).surface = none) := by
  simp only [reachesImageAcquire, Bool.and_eq_true] at h
  obtain ⟨hv, hm⟩ := h
  rcases hg : getNextBackbuffer s with _ | p
  · rw [hg] at hm; simp at hm
  · obtain ⟨s1, bIdx⟩ := p
    rw [hg] at hm
    dsimp only at hm
    obtain ⟨hi, hs1⟩ := getNextBackbuffer_eq_some s s1 bIdx hg
    have hacq : acquireSurface s env = acquireSurfaceAfterRotation s1 bIdx env := by
      unfold acquireSurface
      rw [if_neg (by simp [hv]), hg]
    refine ⟨?_, ?_, ?_⟩
    · intro ha
      rw [hacq, acquireSurfaceAfterRotation_outOfDate s1 bIdx env hm ha]
      subst hs1
      exact ⟨rfl, rfl, rfl, rfl⟩
    · intro k ha
      rw [hacq, acquireSurfaceAfterRotation_other s1 bIdx env k hm ha]
      exact ⟨rfl, rfl⟩
    · intro hns
      rw [hacq] at hns ⊢
      rcases acquireSurfaceAfterRotation_success_or s1 bIdx env with hl | hr
      · exact absurd hl.1 hns
      · subst hs1
        exact ⟨hr.2.2, hr.2.1⟩

/-- Witness for C4: on `exChain`, an acquire whose platform call reports
out-of-date returns `(ErrorSurfaceOutOfDate, null)`. -/
theorem acquire_error_paths_witness :
    (acquireSurface exChain exAcquireEnvOutOfDate).status =
        AcquireStatus.errorSurfaceOutOfDate ∧
    (acquireSurface exChain exAcquireEnvOutOfDate).surface = none ∧
    (acquireSurface exChain exAcquireEnvOutOfDate).state.currentImageIndex =
        exChain.currentImageIndex :=
  have h := acquire_error_paths exChain exAcquireEnvOutOfDate (by decide)
  ⟨(h.1 rfl).1, (h.1 rfl).2.1, (h.1 rfl).2.2.1⟩

/-- With a failing barrier insertion, the post-rotation body of
`AcquireSurface` leaves `current_pipeline_stage_` unchanged. -/
lemma acquireSurfaceAfterRotation_stage_barrierFail (s1 : Swapchain) (bIdx : Nat)
    (env : AcquireEnv) (hbo : env.barrierOk = false) :
    (acquireSurfaceAfterRotation s1 bIdx env).state.currentPipelineStage =
      s1.currentPipelineStage := by
  obtain ⟨wf, rf, ar, nii, ub, bo, ue, qs, brt⟩ := env
  subst hbo
  cases ar <;>
  · unfold acquireSurfaceAfterRotation
    dsimp only
    simp [apply_ite (fun o : AcquireOutcome => o.state.currentPipelineStage)]

/-- **C5.** When the image-memory-barrier insertion fails during
`AcquireSurface`, `Submit` or `FlushCommands`, the tracked
`current_pipeline_stage_` is unchanged from before the call and the
operation reports failure; contrapositively, the stage is advanced only
when the barrier insertion succeeds. -/
theorem barrier_failure_leaves_stage (s : Swapchain)
    (ea : AcquireEnv) (es : SubmitEnv) (ef : FlushEnv)
    (ha : ea.barrierOk = false) (hs : es.barrierOk = false) (hf : ef.barrierOk = false) :
    ((acquireSurface s ea).state.currentPipelineStage = s.currentPipelineStage ∧
     (acquireSurface s ea).status ≠ AcquireStatus.success) ∧
    ((submit s es).1.currentPipelineStage = s.currentPipelineStage ∧
     (submit s es).2 = false) ∧
    ((flushCommands s ef).1.currentPipelineStage = s.currentPipelineStage ∧
     (flushCommands s ef).2 = false) := by
  refine ⟨?_, ?_, ?_⟩
  · unfold acquireSurface
    by_cases hvv : isValid s = false
    · simp [hvv]
    · rw [if_neg hvv]
      rcases hg : getNextBackbuffer s with _ | p
      · simp
      · obtain ⟨s1, bIdx⟩ := p
        obtain ⟨hi, hs1⟩ := getNextBackbuffer_eq_some s s1 bIdx hg
        constructor
        · rw [acquireSurfaceAfterRotation_stage_barrierFail s1 bIdx ea ha]
          subst hs1; rfl
        · rcases acquireSurfaceAfterRotation_success_or s1 bIdx ea with hl | hr
          · rw [hl.2.2.2.1] at ha; exact absurd ha (by simp)
          · exact hr.1
  · obtain ⟨rb, bo, re, qs, po⟩ := es
    subst hs
    constructor
    · unfold submit
      dsimp only
      simp [apply_ite (fun p : Swapchain × Bool => p.1.currentPipelineStage)]
    · unfold submit
      dsimp only
      simp [apply_ite (fun p : Swapchain × Bool => p.2)]
  · obtain ⟨rb, bo, re⟩ := ef
    subst hf
    constructor
    · unfold flushCommands
      dsimp only
      simp [apply_ite (fun p : Swapchain × Bool => p.1.currentPipelineStage)]
    · unfold flushCommands
      dsimp only
      simp [apply_ite (fun p : Swapchain × Bool => p.2)]

/-- Witness for C5: on `exChain`, with the barrier insertion failing, all
three operations leave the pipeline stage at top-of-pipe and fail. -/
theorem barrier_failure_leaves_stage_witness :
    ((acquireSurface exChain exAcquireEnvBarrierFail).state.currentPipelineStage =
        exChain.currentPipelineStage ∧
     (acquireSurface exChain exAcquireEnvBarrierFail).status ≠ AcquireStatus.success) ∧
    ((submit exChain exSubmitEnvBarrierFail).1.currentPipelineStage =
        exChain.currentPipelineStage ∧
     (submit exChain exSubmitEnvBarrierFail).2 = false) ∧
    ((flushCommands exChain exFlushEnvBarrierFail).1.currentPipelineStage =
        exChain.currentPipelineStage ∧
     (flushCommands exChain exFlushEnvBarrierFail).2 = false) :=
  barrier_failure_leaves_stage exChain exAcquireEnvBarrierFail exSubmitEnvBarrierFail
    exFlushEnvBarrierFail (by decide) (by decide) (by decide)

/-- A successful `GetNextBackbuffer` hands back an in-range backbuffer
index. -/
lemma getNextBackbuffer_idx_lt (s s1 : Swapchain) (bIdx : Nat)
    (h : getNextBackbuffer s = some (s1, bIdx)) :
    bIdx < s.backbuffers.length := by
  have hn : s.backbuffers.length ≠ 0 := by
    intro hz
    simp only [getNextBackbuffer] at h
    rw [if_pos hz] at h
    exact Option.noConfusion h
  obtain ⟨hi, -⟩ := getNextBackbuffer_eq_some s s1 bIdx h
  rw [hi]
  exact Nat.mod_lt _ (Nat.pos_of_ne_zero hn)

/-- When every step through the usage queue submit succeeds, the
post-rotation body clears the multi-threading flag of the acquired
backbuffer (whatever happens in steps 8 and beyond). -/
lemma acquireSurfaceAfterRotation_flag_cleared (s1 : Swapchain) (bIdx : Nat)
    (env : AcquireEnv)
    (hf : fencePhasePassed s1 bIdx env = true)
    (ha : env.acquireResult = VkResult.success)
    (hb : env.nextImageIndex < s1.images.length)
    (himg : (s1.images[env.nextImageIndex]?.getD default).valid = true)
    (hub : env.usageBeginOk = true) (hbo : env.barrierOk = true)
    (hue : env.usageEndOk = true) (hqs : env.queueSubmitOk = true) :
    (acquireSurfaceAfterRotation s1 bIdx env).state.backbuffers =
      s1.backbuffers.set bIdx
        { s1.backbuffers[bIdx]?.getD default with multiThreading := false } := by
  simp only [fencePhasePassed, Bool.or_eq_true, Bool.and_eq_true] at hf
  have h1 : ¬((s1.backbuffers[bIdx]?.getD default).multiThreading = false ∧
      env.waitFencesOk = false) := by
    rintro ⟨hmt, hwf⟩
    rcases hf with h | ⟨h, -⟩
    · rw [hmt] at h; exact Bool.false_ne_true h
    · rw [hwf] at h; exact Bool.false_ne_true h
  have h2 : ¬((s1.backbuffers[bIdx]?.getD default).multiThreading = false ∧
      env.resetFencesOk = false) := by
    rintro ⟨hmt, hrf⟩
    rcases hf with h | ⟨-, h⟩
    · rw [hmt] at h; exact Bool.false_ne_true h
    · rw [hrf] at h; exact Bool.false_ne_true h
  unfold acquireSurfaceAfterRotation
  dsimp only
  rw [if_neg h1, if_neg h2, ha]
  rw [if_neg (Nat.not_le.mpr hb), if_neg (by simp [himg]), if_neg (by simp [hub]),
    if_neg (by simp [hbo]), if_neg (by simp [hue]), if_neg (by simp [hqs])]
  simp [apply_ite (fun o : AcquireOutcome => o.state.backbuffers), setBackbuffer]

/-- Counterexample to C7 as stated: on `exChainBatched` the acquire rotates
onto the batched backbuffer at slot 1 and reaches the usage-submit step
(every earlier step succeeded), but because the usage queue submit itself
fails, the function returns before `UnsetMultiThreading()`, so the batched
flag is still set afterwards. -/
theorem acquire_batched_flag_counterexample :
    reachesUsageSubmit exChainBatched exAcquireEnvSubmitFail = true ∧
    ((acquireSurface exChainBatched exAcquireEnvSubmitFail).state.backbuffers[1]?.getD
        default).multiThreading = true := by decide

/-- **C7 (amended).** During `AcquireSurface`: a backbuffer flagged batched
skips the private fence wait and reset (the outcome is independent of the
wait/reset results); an unflagged backbuffer always waits on and resets its
own fences before image acquisition, a failure of either aborting the call
with `(ErrorSurfaceLost, null)` and no further state change; and in every
`AcquireSurface` whose usage queue submit is reached *and succeeds*, the
batched flag of the acquired backbuffer is reset to false (if the usage
submit fails the flag is left as it was). -/
theorem acquire_batched_flag_behavior :
    (∀ (s s1 : Swapchain) (bIdx : Nat) (wfa rfa wfb rfb : Bool) (ar : VkResult)
        (nii : Nat) (ub bo ue qs brt : Bool),
      getNextBackbuffer s = some (s1, bIdx) →
      (s1.backbuffers[bIdx]?.getD default).multiThreading = true →
      acquireSurface s ⟨wfa, rfa, ar, nii, ub, bo, ue, qs, brt⟩ =
        acquireSurface s ⟨wfb, rfb, ar, nii, ub, bo, ue, qs, brt⟩) ∧
    (∀ (s s1 : Swapchain) (bIdx : Nat) (env : AcquireEnv),
      isValid s = true →
      getNextBackbuffer s = some (s1, bIdx) →
      (s1.backbuffers[bIdx]?.getD default).multiThreading = false →
      (env.waitFencesOk = false ∨ env.resetFencesOk = false) →
      acquireSurface s env = ⟨s1, AcquireStatus.errorSurfaceLost, none⟩) ∧
    (∀ (s s1 : Swapchain) (bIdx : Nat) (env : AcquireEnv),
      getNextBackbuffer s = some (s1, bIdx) →
      reachesUsageSubmit s env = true →
      env.queueSubmitOk = true →
      ((acquireSurface s env).state.backbuffers[bIdx]?.getD
          default).multiThreading = false) := by
  refine ⟨?_, ?_, ?_⟩
  · intro s s1 bIdx wfa rfa wfb rfb ar nii ub bo ue qs brt hg hmt
    by_cases hvv : isValid s = false
    · simp [acquireSurface, hvv]
    · unfold acquireSurface
      rw [hg]
      simp only [if_neg hvv]
      unfold acquireSurfaceAfterRotation
      dsimp only
      have h1a : ¬((s1.backbuffers[bIdx]?.getD default).multiThreading = false ∧
          wfa = false) := by simp [hmt]
      have h2a : ¬((s1.backbuffers[bIdx]?.getD default).multiThreading = false ∧
          rfa = false) := by simp [hmt]
      have h1b : ¬((s1.backbuffers[bIdx]?.getD default).multiThreading = false ∧
          wfb = false) := by simp [hmt]
      have h2b : ¬((s1.backbuffers[bIdx]?.getD default).multiThreading = false ∧
          rfb = false) := by simp [hmt]
      rw [if_neg h1a, if_neg h2a, if_neg h1b, if_neg h2b]
  · intro s s1 bIdx env hv hg hmt hfail
    unfold acquireSurface
    rw [if_neg (by simp [hv]), hg]
    unfold acquireSurfaceAfterRotation
    dsimp only
    rcases hfail with hwf | hrf
    · rw [if_pos ⟨hmt, hwf⟩]
    · by_cases hwf : env.waitFencesOk = false
      · rw [if_pos ⟨hmt, hwf⟩]
      · rw [if_neg (by rintro ⟨-, h⟩; exact hwf h), if_pos ⟨hmt, hrf⟩]
  · intro s s1 bIdx env hg h hqs
    simp only [reachesUsageSubmit, Bool.and_eq_true] at h
    obtain ⟨⟨⟨⟨⟨⟨h1, h2⟩, h3⟩, h4⟩, h5⟩, h6⟩, h7⟩ := h
    simp only [reachesImageAcquire, Bool.and_eq_true] at h1
    obtain ⟨hv, hm⟩ := h1
    rw [hg] at hm
    dsimp only at hm
    have ha : env.acquireResult = VkResult.success := by
      rcases hh : env.acquireResult with _ | _ | _ | k
      · rfl
      all_goals (rw [hh] at h2; simp at h2)
    obtain ⟨hi, hs1⟩ := getNextBackbuffer_eq_some s s1 bIdx hg
    have hlt : bIdx < s.backbuffers.length := getNextBackbuffer_idx_lt s s1 bIdx hg
    have hacq : acquireSurface s env = acquireSurfaceAfterRotation s1 bIdx env := by
      unfold acquireSurface
      rw [if_neg (by simp [hv]), hg]
    rw [hacq]
    rw [acquireSurfaceAfterRotation_flag_cleared s1 bIdx env hm ha
      (by subst hs1; exact of_decide_eq_true h3) (by subst hs1; exact h4) h5 h6 h7 hqs]
    have hlt1 : bIdx < s1.backbuffers.length := by subst hs1; exact hlt
    rw [List.getElem?_set_eq_of_lt _ hlt1]
    rfl

/-- Witness for C7 (amended): on `exChainBatched`, a fully successful
acquire lands on the batched backbuffer at slot 1 and leaves its
multi-threading flag cleared. -/
theorem acquire_batched_flag_behavior_witness :
    ((acquireSurface exChainBatched exAcquireEnv).state.backbuffers[1]?.getD
        default).multiThreading = false :=
  acquire_batched_flag_behavior.2.2 exChainBatched
    { exChainBatched with currentBackbufferIndex := 1 } 1 exAcquireEnv
    (by decide) (by decide) (by decide)

/-- Counterexample to C1 as stated: with one registered chain and a failing
batched queue submit, `PresentAll` returns early and the registry is *not*
cleared. -/
theorem presentAll_clear_counterexample :
    (presentAll [exChain] 7 exPresentAllEnvSubmitFail).registry ≠ [] := by decide

/-- **C1 (amended).** After `PresentAll` on a non-empty registry, the
registry is empty exactly when both the batched queue submit and the batched
present call succeeded; on either failure the early return leaves the
registry with the same chains (now carrying the batched marking), so a
failed cycle does leave the registry populated. -/
theorem presentAll_registry_after (reg : List Swapchain) (f : Nat) (env : PresentAllEnv)
    (h : reg ≠ []) :
    (presentAll reg f env).registry =
      if env.queueSubmitOk = true ∧ env.presentOk = true then []
      else reg.map markBatched := by
  unfold presentAll
  rw [if_neg (by simp [h])]
  dsimp only
  by_cases hq : env.queueSubmitOk = false
  · rw [if_pos hq]
    simp [hq]
  · rw [if_neg hq]
    have hq' : env.queueSubmitOk = true := Bool.eq_true_of_not_eq_false hq
    by_cases hp : env.presentOk = false
    · rw [if_pos hp]
      simp [hp]
    · rw [if_neg hp]
      have hp' : env.presentOk = true := Bool.eq_true_of_not_eq_false hp
      simp [hq', hp']

/-- Witness for C1 (amended): one registered chain, submit fails — the
registry afterwards holds the marked chain rather than being empty. -/
theorem presentAll_registry_after_witness :
    (presentAll [exChain] 7 exPresentAllEnvSubmitFail).registry =
      if exPresentAllEnvSubmitFail.queueSubmitOk = true ∧
          exPresentAllEnvSubmitFail.presentOk = true then []
      else [exChain].map markBatched :=
  presentAll_registry_after [exChain] 7 exPresentAllEnvSubmitFail (by decide)

/-- Counterexample to C2 as stated: in the statement-order trace of
`PresentAll` on a non-empty registry, a registry access (the
`to_be_present_.empty()` check of line 679) occurs before the mutex is
acquired at line 684, i.e. outside the critical section. -/
theorem presentAll_lock_counterexample :
    accessBeforeLock (presentAllEvents false true true) = true := by decide

/-- **C2 (amended).** The initial empty-registry check of `PresentAll` is
performed *before* the registry mutex is acquired; every other registry
access of `PresentAll` — the collection reads and the clearing — happens
inside the mutex-guarded critical section (the only access outside it is
that initial empty check), and the registration insert of `AddToPresent` is
entirely inside the mutex. -/
theorem registry_lock_discipline :
    (∀ e s p : Bool,
      accessesOutsideLock (presentAllEvents e s p) = [RegistryEvent.emptyCheck]) ∧
    accessesOutsideLock addToPresentEvents = [] := by decide

/-- `markBatched` only touches the backbuffer array. -/
@[simp] lemma markBatched_handle (c : Swapchain) : (markBatched c).handle = c.handle := rfl

@[simp] lemma markBatched_currentImageIndex (c : Swapchain) :
    (markBatched c).currentImageIndex = c.currentImageIndex := rfl

/-- With an in-range `current_backbuffer_index_`, marking a chain batched
sets exactly the multi-threading flag of its current backbuffer. -/
lemma currentBackbuffer_markBatched (c : Swapchain)
    (h : c.currentBackbufferIndex < c.backbuffers.length) :
    currentBackbuffer (markBatched c) =
      { currentBackbuffer c with multiThreading := true } := by
  unfold markBatched currentBackbuffer setBackbuffer
  dsimp only
  rw [List.getElem?_set_eq_of_lt _ h]
  rfl

/-- The contributing chains returned by `PresentAll` are the registered
chains with their current backbuffers marked, whatever the submit and
present outcomes. -/
lemma presentAll_chains (reg : List Swapchain) (f : Nat) (env : PresentAllEnv)
    (h : reg ≠ []) :
    (presentAll reg f env).chains = reg.map markBatched := by
  unfold presentAll
  rw [if_neg (by simp [h])]
  dsimp only
  by_cases hq : env.queueSubmitOk = false
  · rw [if_pos hq]
  · rw [if_neg hq]
    by_cases hp : env.presentOk = false
    · rw [if_pos hp]
    · rw [if_neg hp]

/-- **C6.** With N chains (N ≥ 1) registered, each with an in-range current
backbuffer index, one `PresentAll` call: marks every contributing chain's
current backbuffer batched; issues exactly one device-queue submit with no
wait semaphores, signalling all N render semaphores, carrying all N render
command buffers and the externally supplied shared fence; and, exactly when
the submit succeeds, issues one present call referencing all N chains and
their currently acquired image indices, waiting on all N render
semaphores. -/
theorem presentAll_batches (reg : List Swapchain) (f : Nat) (env : PresentAllEnv)
    (h : reg ≠ [])
    (hidx : ∀ c ∈ reg, c.currentBackbufferIndex < c.backbuffers.length) :
    (presentAll reg f env).submitCalls =
      [⟨[], reg.map fun c => (currentBackbuffer c).renderSemaphore,
        reg.map fun c => (currentBackbuffer c).renderCommandBuffer, f⟩] ∧
    (∀ c ∈ (presentAll reg f env).chains,
      (currentBackbuffer c).multiThreading = true) ∧
    (presentAll reg f env).chains.length = reg.length ∧
    (env.queueSubmitOk = true →
      (presentAll reg f env).presentCalls =
        [⟨reg.map fun c => (currentBackbuffer c).renderSemaphore,
          reg.map fun c => c.handle,
          reg.map fun c => c.currentImageIndex⟩]) ∧
    (env.queueSubmitOk = false → (presentAll reg f env).presentCalls = []) := by
  have hsem : (reg.map markBatched).map (fun c => (currentBackbuffer c).renderSemaphore) =
      reg.map fun c => (currentBackbuffer c).renderSemaphore := by
    rw [List.map_map]
    exact List.map_congr_left fun c hc => by
      rw [Function.comp_apply, currentBackbuffer_markBatched c (hidx c hc)]
  have hcb : (reg.map markBatched).map (fun c => (currentBackbuffer c).renderCommandBuffer) =
      reg.map fun c => (currentBackbuffer c).renderCommandBuffer := by
    rw [List.map_map]
    exact List.map_congr_left fun c hc => by
      rw [Function.comp_apply, currentBackbuffer_markBatched c (hidx c hc)]
  have hhandle : (reg.map markBatched).map (fun c => c.handle) =
      reg.map fun c => c.handle := by
    rw [List.map_map]
    exact List.map_congr_left fun c hc => rfl
  have himg : (reg.map markBatched).map (fun c => c.currentImageIndex) =
      reg.map fun c => c.currentImageIndex := by
    rw [List.map_map]
    exact List.map_congr_left fun c hc => rfl
  have hch := presentAll_chains reg f env h
  refine ⟨?_, ?_, ?_, ?_, ?_⟩
  · have : (presentAll reg f env).submitCalls =
        [⟨[], (reg.map markBatched).map fun c => (currentBackbuffer c).renderSemaphore,
          (reg.map markBatched).map fun c => (currentBackbuffer c).renderCommandBuffer, f⟩] := by
      unfold presentAll
      rw [if_neg (by simp [h])]
      dsimp only
      by_cases hq : env.queueSubmitOk = false
      · rw [if_pos hq]
      · rw [if_neg hq]
        by_cases hp : env.presentOk = false
        · rw [if_pos hp]
        · rw [if_neg hp]
    rw [this, hsem, hcb]
  · intro c hc
    rw [hch] at hc
    obtain ⟨c0, hc0, rfl⟩ := List.mem_map.mp hc
    rw [currentBackbuffer_markBatched c0 (hidx c0 hc0)]
  · rw [hch, List.length_map]
  · intro hq
    have : (presentAll reg f env).presentCalls =
        [⟨(reg.map markBatched).map fun c => (currentBackbuffer c).renderSemaphore,
          (reg.map markBatched).map fun c => c.handle,
          (reg.map markBatched).map fun c => c.currentImageIndex⟩] := by
      unfold presentAll
      rw [if_neg (by simp [h])]
      dsimp only
      rw [if_neg (by simp [hq])]
      by_cases hp : env.presentOk = false
      · rw [if_pos hp]
      · rw [if_neg hp]
    rw [this, hsem, hhandle, himg]
  · intro hq
    unfold presentAll
    rw [if_neg (by simp [h])]
    dsimp only
    rw [if_pos hq]

/-- Witness for C6: two registered chains, both calls succeed — one submit
signalling both render semaphores with the shared fence, one present over
both chains. -/
theorem presentAll_batches_witness :
    (presentAll [exChain, exChainBatched] 9 exPresentAllEnvOk).submitCalls =
      [⟨[], [exChain, exChainBatched].map fun c => (currentBackbuffer c).renderSemaphore,
        [exChain, exChainBatched].map fun c => (currentBackbuffer c).renderCommandBuffer, 9⟩] ∧
    (∀ c ∈ (presentAll [exChain, exChainBatched] 9 exPresentAllEnvOk).chains,
      (currentBackbuffer c).multiThreading = true) :=
  have hb := presentAll_batches [exChain, exChainBatched] 9 exPresentAllEnvOk
    (by decide) (by decide)
  ⟨hb.1, hb.2.1⟩

/-- `AcquireSurface` never changes the `valid_` flag. -/
lemma acquireSurface_valid (s : Swapchain) (env : AcquireEnv) :
    (acquireSurface s env).state.valid = s.valid := by
  unfold acquireSurface
  by_cases hvv : isValid s = false
  · rw [if_pos hvv]
  · rw [if_neg hvv]
    rcases hg : getNextBackbuffer s with _ | p
    · rfl
    · obtain ⟨s1, bIdx⟩ := p
      obtain ⟨-, hs1⟩ := getNextBackbuffer_eq_some s s1 bIdx hg
      rw [acquireSurfaceAfterRotation_valid s1 bIdx env, hs1]

/-- `Submit` changes only the pipeline stage and a backbuffer flag: the
`valid_` flag, the array lengths and contents (other than one flag) and
both counters are untouched. -/
lemma submit_frame (s : Swapchain) (env : SubmitEnv) :
    (submit s env).1.valid = s.valid ∧
    (submit s env).1.backbuffers.length = s.backbuffers.length ∧
    (submit s env).1.images = s.images ∧
    (submit s env).1.surfaces = s.surfaces ∧
    (submit s env).1.currentBackbufferIndex = s.currentBackbufferIndex ∧
    (submit s env).1.currentImageIndex = s.currentImageIndex := by
  obtain ⟨rb, bo, re, qs, po⟩ := env
  refine ⟨?_, ?_, ?_, ?_, ?_, ?_⟩ <;>
  · unfold submit
    dsimp only
    first
    | simp [apply_ite (fun p : Swapchain × Bool => p.1.valid)]
    | simp [apply_ite (fun p : Swapchain × Bool => p.1.backbuffers.length)]
    | simp [apply_ite (fun p : Swapchain × Bool => p.1.images)]
    | simp [apply_ite (fun p : Swapchain × Bool => p.1.surfaces)]
    | simp [apply_ite (fun p : Swapchain × Bool => p.1.currentBackbufferIndex)]
    | simp [apply_ite (fun p : Swapchain × Bool => p.1.currentImageIndex)]

/-- `FlushCommands` changes only the pipeline stage. -/
lemma flushCommands_frame (s : Swapchain) (env : FlushEnv) :
    (flushCommands s env).1.valid = s.valid ∧
    (flushCommands s env).1.backbuffers.length = s.backbuffers.length ∧
    (flushCommands s env).1.images = s.images ∧
    (flushCommands s env).1.surfaces = s.surfaces ∧
    (flushCommands s env).1.currentBackbufferIndex = s.currentBackbufferIndex ∧
    (flushCommands s env).1.currentImageIndex = s.currentImageIndex := by
  obtain ⟨rb, bo, re⟩ := env
  refine ⟨?_, ?_, ?_, ?_, ?_, ?_⟩ <;>
  · unfold flushCommands
    dsimp only
    first
    | simp [apply_ite (fun p : Swapchain × Bool => p.1.valid)]
    | simp [apply_ite (fun p : Swapchain × Bool => p.1.backbuffers.length)]
    | simp [apply_ite (fun p : Swapchain × Bool => p.1.images)]
    | simp [apply_ite (fun p : Swapchain × Bool => p.1.surfaces)]
    | simp [apply_ite (fun p : Swapchain × Bool => p.1.currentBackbufferIndex)]
    | simp [apply_ite (fun p : Swapchain × Bool => p.1.currentImageIndex)]

/-- **C8.** During construction, once the validity and capabilities guards
pass, the platform is asked to choose among exactly the candidate list in
which every format whose color type the renderer backend cannot target has
been replaced by `VK_FORMAT_UNDEFINED`; and if the platform chooses no
candidate (negative index) the whole construction fails, leaving the
swapchain permanently invalid — `IsValid()` is false and stays false
across `AcquireSurface`, `Submit` and `FlushCommands`. -/
theorem construction_masks_formats_and_fails (env : CtorEnv) (handle : Nat)
    (hd : env.deviceValid = true) (hsv : env.surfaceValid = true)
    (hk : env.skiaContextNonNull = true) (hc : env.getCapabilitiesOk = true) :
    (constructSwapchain env handle).formatQuery =
      some (desiredFormats env.colorTypeSupportedAsSurface) ∧
    (∀ i, ∀ hi : i < desiredFormatInfos.length,
      env.colorTypeSupportedAsSurface (desiredFormatInfos.get ⟨i, hi⟩).colorType = false →
      (desiredFormats env.colorTypeSupportedAsSurface)[i]? = some VkFormat.undefined) ∧
    (env.chooseSurfaceFormat (desiredFormats env.colorTypeSupportedAsSurface) < 0 →
      (constructSwapchain env handle).chain.valid = false ∧
      isValid (constructSwapchain env handle).chain = false ∧
      (∀ ae, (acquireSurface (constructSwapchain env handle).chain ae).state.valid = false) ∧
      (∀ se, (submit (constructSwapchain env handle).chain se).1.valid = false) ∧
      (∀ fe, (flushCommands (constructSwapchain env handle).chain fe).1.valid = false)) := by
  have hguard : ¬(env.deviceValid = false ∨ env.surfaceValid = false ∨
      env.skiaContextNonNull = false) := by
    simp [hd, hsv, hk]
  refine ⟨?_, ?_, ?_⟩
  · unfold constructSwapchain
    rw [if_neg hguard, if_neg (by simp [hc])]
    dsimp only
    split_ifs <;> rfl
  · intro i hi hsupp
    unfold desiredFormats
    rw [List.getElem?_map, List.getElem?_eq_getElem hi]
    simp only [Option.map_some']
    rw [List.get_eq_getElem] at hsupp
    rw [if_neg (by simp [hsupp])]
  · intro hlt
    have hvalid : (constructSwapchain env handle).chain.valid = false := by
      unfold constructSwapchain
      rw [if_neg hguard, if_neg (by simp [hc])]
      dsimp only
      rw [if_pos hlt]
    refine ⟨hvalid, hvalid, ?_, ?_, ?_⟩
    · intro ae
      rw [acquireSurface_valid, hvalid]
    · intro se
      rw [(submit_frame _ se).1, hvalid]
    · intro fe
      rw [(flushCommands_frame _ fe).1, hvalid]

/-- Witness for C8: in `exCtorEnvNoFormat` no color type is supported, so
every candidate is masked to undefined, the platform returns -1 and the
constructed swapchain is invalid. -/
theorem construction_masks_formats_and_fails_witness :
    (constructSwapchain exCtorEnvNoFormat 3).formatQuery =
      some (desiredFormats exCtorEnvNoFormat.colorTypeSupportedAsSurface) ∧
    (constructSwapchain exCtorEnvNoFormat 3).chain.valid = false ∧
    isValid (constructSwapchain exCtorEnvNoFormat 3).chain = false :=
  have h := construction_masks_formats_and_fails exCtorEnvNoFormat 3 rfl rfl rfl rfl
  have h3 := h.2.2 (by decide)
  ⟨h.1, h3.1, h3.2.1⟩

/-- When the `CreateSwapchainImages` population loop returns success, each
of the three arrays has grown by exactly one entry per image slot. -/
lemma createImagesLoop_ok (slots : List ImageEnv) (bbs : List Backbuffer)
    (imgs : List VulkanImage) (surfs : List Bool)
    (h : (createImagesLoop slots bbs imgs surfs).2.2.2 = true) :
    (createImagesLoop slots bbs imgs surfs).1.length = bbs.length + slots.length ∧
    (createImagesLoop slots bbs imgs surfs).2.1.length = imgs.length + slots.length ∧
    (createImagesLoop slots bbs imgs surfs).2.2.1.length = surfs.length + slots.length := by
  induction slots generalizing bbs imgs surfs with
  | nil => simp [createImagesLoop]
  | cons slot rest ih =>
    unfold createImagesLoop at h ⊢
    by_cases h1 : slot.backbufferOk = false
    · rw [if_pos h1] at h; simp at h
    · rw [if_neg h1] at h ⊢
      dsimp only at h ⊢
      by_cases h2 : slot.imageOk = false
      · rw [if_pos h2] at h; simp at h
      · rw [if_neg h2] at h ⊢
        by_cases h3 : slot.surfaceOk = false
        · rw [if_pos h3] at h; simp at h
        · rw [if_neg h3] at h ⊢
          obtain ⟨a, b, c⟩ := ih (bbs ++ [⟨true, false, 0, 0⟩]) (imgs ++ [⟨true⟩])
            (surfs ++ [true]) h
          simp only [List.length_append, List.length_cons, List.length_nil] at a b c ⊢
          exact ⟨by omega, by omega, by omega⟩

/-- When `CreateSwapchainImages` succeeds, the three arrays end up with the
same non-zero length, one entry per swapchain image. -/
lemma createSwapchainImages_ok (slots : List ImageEnv)
    (h : (createSwapchainImages slots).2.2.2 = true) :
    (createSwapchainImages slots).1.length = slots.length ∧
    (createSwapchainImages slots).2.1.length = slots.length ∧
    (createSwapchainImages slots).2.2.1.length = slots.length ∧
    0 < slots.length := by
  unfold createSwapchainImages at h ⊢
  by_cases he : slots.isEmpty
  · rw [if_pos he] at h; simp at h
  · rw [if_neg he] at h ⊢
    obtain ⟨a, b, c⟩ := createImagesLoop_ok slots [] [] [] h
    simp only [List.length_nil, Nat.zero_add] at a b c
    have hne : slots ≠ [] := by simpa [List.isEmpty_iff] using he
    exact ⟨a, b, c, List.length_pos.mpr hne⟩

/-- Construction establishes the validity invariant: a successfully
constructed swapchain has equal non-empty arrays and zeroed counters; a
failed construction is invalid, making the invariant vacuous. -/
lemma constructSwapchain_Inv (env : CtorEnv) (handle : Nat) :
    Inv (constructSwapchain env handle).chain := by
  unfold constructSwapchain
  dsimp only
  split_ifs
  all_goals intro hval
  all_goals try dsimp only at hval ⊢
  all_goals try exact absurd hval Bool.false_ne_true
  obtain ⟨a, b, c, d⟩ := createSwapchainImages_ok env.getImages hval
  refine ⟨?_, ?_, ?_, ?_, ?_⟩
  · rw [a, b]
  · rw [b, c]
  · rw [b]; exact d
  · show 0 < _
    rw [b]; exact d
  · show 0 < _
    rw [a]; exact d

/-- `AcquireSurface` preserves the validity invariant. -/
lemma acquireSurface_Inv (s : Swapchain) (env : AcquireEnv) (h : Inv s) :
    Inv (acquireSurface s env).state := by
  unfold acquireSurface
  by_cases hvv : isValid s = false
  · rw [if_pos hvv]; exact h
  · rw [if_neg hvv]
    rcases hg : getNextBackbuffer s with _ | p
    · exact h
    · obtain ⟨s1, bIdx⟩ := p
      obtain ⟨hi, hs1⟩ := getNextBackbuffer_eq_some s s1 bIdx hg
      intro hval
      rw [acquireSurfaceAfterRotation_valid s1 bIdx env] at hval
      have hsv : s.valid = true := by rw [hs1] at hval; exact hval
      obtain ⟨l1, l2, l3, l4, l5⟩ := h hsv
      have hlen : (acquireSurfaceAfterRotation s1 bIdx env).state.backbuffers.length =
          s.backbuffers.length := by
        rw [acquireSurfaceAfterRotation_bbLength s1 bIdx env, hs1]
      have himgs : (acquireSurfaceAfterRotation s1 bIdx env).state.images = s.images := by
        rw [acquireSurfaceAfterRotation_images s1 bIdx env, hs1]
      have hsurf : (acquireSurfaceAfterRotation s1 bIdx env).state.surfaces = s.surfaces := by
        rw [acquireSurfaceAfterRotation_surfaces s1 bIdx env, hs1]
      have hbb : (acquireSurfaceAfterRotation s1 bIdx env).state.currentBackbufferIndex =
          bIdx := by
        rw [acquireSurfaceAfterRotation_bbIdx s1 bIdx env, hs1]
      refine ⟨?_, ?_, ?_, ?_, ?_⟩
      · rw [hlen, himgs, l1]
      · rw [himgs, hsurf, l2]
      · rw [himgs]; exact l3
      · rcases acquireSurfaceAfterRotation_success_or s1 bIdx env with hl | hr
        · rw [hl.2.2.1, himgs]
          have := hl.2.2.2.2.2
          rw [hs1] at this
          exact this
        · rw [hr.2.2, himgs, hs1]
          exact l4
      · rw [hbb, hlen, hi]
        exact Nat.mod_lt _ (Nat.lt_of_le_of_lt (Nat.zero_le _) l5)

/-- `Submit` preserves the validity invariant. -/
lemma submit_Inv (s : Swapchain) (env : SubmitEnv) (h : Inv s) :
    Inv (submit s env).1 := by
  obtain ⟨f1, f2, f3, f4, f5, f6⟩ := submit_frame s env
  intro hval
  rw [f1] at hval
  obtain ⟨l1, l2, l3, l4, l5⟩ := h hval
  rw [f2, f3, f4, f5, f6]
  exact ⟨l1, l2, l3, l4, l5⟩

/-- `FlushCommands` preserves the validity invariant. -/
lemma flushCommands_Inv (s : Swapchain) (env : FlushEnv) (h : Inv s) :
    Inv (flushCommands s env).1 := by
  obtain ⟨f1, f2, f3, f4, f5, f6⟩ := flushCommands_frame s env
  intro hval
  rw [f1] at hval
  obtain ⟨l1, l2, l3, l4, l5⟩ := h hval
  rw [f2, f3, f4, f5, f6]
  exact ⟨l1, l2, l3, l4, l5⟩

/-- Marking a chain batched (the `PresentAll` collection loop) preserves the
validity invariant. -/
lemma markBatched_Inv (s : Swapchain) (h : Inv s) : Inv (markBatched s) := by
  intro hval
  simp only [markBatched, setBackbuffer_valid] at hval
  obtain ⟨l1, l2, l3, l4, l5⟩ := h hval
  simp only [markBatched, setBackbuffer_length, setBackbuffer_images,
    setBackbuffer_surfaces, setBackbuffer_currentImageIndex,
    setBackbuffer_currentBackbufferIndex]
  exact ⟨l1, l2, l3, l4, l5⟩

/-- **C9.** Whenever `IsValid()` is true the backbuffer, image and surface
arrays have the same non-zero length and both counters are in range;
construction establishes this and every public operation preserves it
(`AcquireSurface` assigns `current_image_index_` only after the bounds
check), so the unchecked indexing `surfaces_[current_image_index_]`,
`images_[current_image_index_]` and `backbuffers_[current_backbuffer_index_]`
performed by `Submit` and `FlushCommands` stays in range. -/
theorem valid_invariant_maintained (env : CtorEnv) (handle : Nat) (s : Swapchain)
    (ae : AcquireEnv) (se : SubmitEnv) (fe : FlushEnv) (h : Inv s) :
    Inv (constructSwapchain env handle).chain ∧
    Inv (acquireSurface s ae).state ∧
    Inv (submit s se).1 ∧
    Inv (flushCommands s fe).1 ∧
    Inv (markBatched s) ∧
    (s.valid = true →
      s.currentImageIndex < s.images.length ∧
      s.currentImageIndex < s.surfaces.length ∧
      s.currentBackbufferIndex < s.backbuffers.length) :=
  ⟨constructSwapchain_Inv env handle, acquireSurface_Inv s ae h, submit_Inv s se h,
   flushCommands_Inv s fe h, markBatched_Inv s h, fun hv => by
    obtain ⟨l1, l2, l3, l4, l5⟩ := h hv
    exact ⟨l4, by rw [← l2]; exact l4, l5⟩⟩

/-- Witness for C9: the invariant holds for a freshly constructed two-image
chain and is preserved by a successful acquire on `exChain`. -/
theorem valid_invariant_maintained_witness :
    Inv (constructSwapchain exCtorEnvOk 4).chain ∧
    Inv (acquireSurface exChain exAcquireEnv).state ∧
    Inv (submit exChain ⟨true, true, true, true, true⟩).1 :=
  have h := valid_invariant_maintained exCtorEnvOk 4 exChain exAcquireEnv
    ⟨true, true, true, true, true⟩ ⟨true, true, true⟩ (by unfold Inv; decide)
  ⟨h.1, h.2.1, h.2.2.1⟩

/-- **C10.** `GetSize` returns the platform-reported current extent with
width and height each independently clamped into the interval
`[minImageExtent, maxImageExtent]` of the capabilities stored at
construction. -/
theorem getSize_clamps (s : Swapchain)
    (hw : s.capabilities.minImageExtent.width ≤ s.capabilities.maxImageExtent.width)
    (hh : s.capabilities.minImageExtent.height ≤ s.capabilities.maxImageExtent.height) :
    (getSize s).1 = min (max s.capabilities.currentExtent.width
        s.capabilities.minImageExtent.width) s.capabilities.maxImageExtent.width ∧
    (getSize s).2 = min (max s.capabilities.currentExtent.height
        s.capabilities.minImageExtent.height) s.capabilities.maxImageExtent.height ∧
    s.capabilities.minImageExtent.width ≤ (getSize s).1 ∧
    (getSize s).1 ≤ s.capabilities.maxImageExtent.width ∧
    s.capabilities.minImageExtent.height ≤ (getSize s).2 ∧
    (getSize s).2 ≤ s.capabilities.maxImageExtent.height := by
  unfold getSize
  dsimp only
  refine ⟨?_, ?_, ?_, ?_, ?_, ?_⟩ <;> split_ifs <;> omega

/-- Witness for C10: on `exCaps` (current 300×200 within [100,400]²) the
returned size equals the current extent and lies within the bounds. -/
theorem getSize_clamps_witness :
    exChain.capabilities.minImageExtent.width ≤ (getSize exChain).1 ∧
    (getSize exChain).1 ≤ exChain.capabilities.maxImageExtent.width ∧
    exChain.capabilities.minImageExtent.height ≤ (getSize exChain).2 ∧
    (getSize exChain).2 ≤ exChain.capabilities.maxImageExtent.height :=
  have h := getSize_clamps exChain (by decide) (by decide)
  ⟨h.2.2.1, h.2.2.2.1, h.2.2.2.2.1, h.2.2.2.2.2⟩

end VulkanSwapchainModel
